import Mathlib

/-!
Verification of the subscription billing reconciliation and usage-refund
logic of the llm-generator backend, shallowly embedded from
`backend/app/api/v1/webhooks.py`, `backend/app/services/refund.py` and
`backend/app/core/subscription_plans.py`.

Database rows become Lean structures, the Stripe-event table becomes a
list of rows, and each handler becomes a pure function from the old state
to the new state.  Outbound Stripe API calls are modelled by explicit
oracle parameters describing what the remote side would answer, and the
calls a run performs are returned as a trace.
-/

namespace LlmGen

/-! ## Webhook event log (`webhooks.py`, StripeEvent model) -/

/-- A row of the `stripe_events` table (`models/stripe_event.py`):
Stripe event id, event type, Stripe creation timestamp and the
processing status string (`processed` or `failed`). -/
structure StripeEvent where
  id : String
  type : String
  created : Int
  status : String
  deriving Repr, DecidableEq

/-- The `stripe_events` table, as the list of its rows. -/
abbrev EventLog := List StripeEvent

/-- `is_event_processed` (webhooks.py line 40): true when some row of the
table has the given event id, regardless of its status. -/
def is_event_processed (log : EventLog) (event_id : String) : Bool :=
  log.any fun e => e.id == event_id

/-- `mark_event_processed` (webhooks.py line 71): insert a row with
status `processed`.  The commit cannot violate the primary key here
because every caller checks the id first, so the insert is total. -/
def mark_event_processed (log : EventLog) (event_id event_type : String)
    (event_created : Int) : EventLog :=
  log ++ [⟨event_id, event_type, event_created, "processed"⟩]

/-- `mark_event_failed` (webhooks.py line 88): insert a row with status
`failed`.  The error message column is not relevant to any claim. -/
def mark_event_failed (log : EventLog) (event_id event_type : String)
    (event_created : Int) : EventLog :=
  log ++ [⟨event_id, event_type, event_created, "failed"⟩]

/-- `should_process_event` (webhooks.py lines 45-68).  Returns the boolean
answer together with the event log after the call, since the ordering
guard records the stale event as processed before returning `false`. -/
def should_process_event (log : EventLog) (event_id event_type : String)
    (event_created : Int) : Bool × EventLog :=
  if is_event_processed log event_id then
    (false, log)
  else if log.any (fun e => e.type == event_type && e.created > event_created) then
    (false, mark_event_processed log event_id event_type event_created)
  else
    (true, log)

/-! ## Plan catalog (`core/subscription_plans.py`) -/

/-- Result of `get_plan_limits`. -/
structure PlanLimits where
  generations_limit : Nat
  max_websites : Nat
  max_pages_per_website : Nat
  deriving Repr, DecidableEq

/-- `get_plan_limits` (subscription_plans.py lines 96-106): quotas per
tier, any unknown tier falling back to the free tier. -/
def get_plan_limits (plan_type : String) : PlanLimits :=
  if plan_type == "free" then ⟨1, 1, 100⟩
  else if plan_type == "starter" then ⟨3, 2, 200⟩
  else if plan_type == "standard" then ⟨10, 5, 500⟩
  else if plan_type == "pro" then ⟨25, 999, 1000⟩
  else ⟨1, 1, 100⟩

/-! ## Subscription row (`models/subscription.py`)

Timestamps are modelled as integers (seconds since the epoch); nullable
columns as `Option`.  Columns no handler of the verified slice touches
(ids, `stripe_price_id`, `amount`, `currency`, `websites_count`,
`canceled_at`) are omitted. -/

structure Subscription where
  plan_type : String
  status : String
  stripe_customer_id : Option String
  stripe_subscription_id : Option String
  current_period_start : Option Int
  current_period_end : Option Int
  cancel_at_period_end : Bool
  generations_used : Nat
  generations_limit : Nat
  websites_limit : Nat
  created_at : Option Int
  updated_at : Int
  deriving Repr, DecidableEq

/-! ## Subscription update handler (`webhooks.py` lines 201-332)

The payload of a `customer.subscription.updated` / `.created` event, as
probed by the handler.  A `none` field models an absent key. -/

/-- One entry of `items.data`, keeping only the probed
`price.id` field. -/
structure PriceItem where
  price_id : Option String
  deriving Repr, DecidableEq

/-- The fields of the event payload read by
`handle_subscription_updated`. -/
structure SubUpdateEvent where
  status : Option String
  current_period_start : Option Int
  current_period_end : Option Int
  cancel_at_period_end : Option Bool
  items : List PriceItem
  deriving Repr, DecidableEq

/-- The two configured price ids the handler compares against
(`settings.STRIPE_PRICE_STANDARD` and `settings.STRIPE_PRICE_PRO`). -/
structure PriceConfig where
  STRIPE_PRICE_STANDARD : String
  STRIPE_PRICE_PRO : String
  deriving Repr, DecidableEq

/-- The plan the handler derives from the first price id of the event
(webhooks.py lines 303-311): the configured standard or pro price maps to
that tier, anything else keeps the stored tier. -/
def price_to_plan (cfg : PriceConfig) (price_id : Option String)
    (stored_plan : String) : String :=
  if price_id == some cfg.STRIPE_PRICE_STANDARD then "standard"
  else if price_id == some cfg.STRIPE_PRICE_PRO then "pro"
  else stored_plan

/-- `handle_subscription_updated`, update path on an existing linked
subscription (webhooks.py lines 281-331).  The fallback paths that link
or create the row (lines 221-279) happen before this code runs and are
not needed by any claim.  A period bound is copied only when present and
non-zero, matching the Python truthiness test. -/
def handle_subscription_updated_core (cfg : PriceConfig) (ev : SubUpdateEvent)
    (s : Subscription) (now : Int) : Subscription :=
  let old_plan := s.plan_type
  let s4 : Subscription := { s with
    status := ev.status.getD s.status,
    current_period_start := match ev.current_period_start with
      | some t => if t == 0 then s.current_period_start else some t
      | none => s.current_period_start,
    current_period_end := match ev.current_period_end with
      | some t => if t == 0 then s.current_period_end else some t
      | none => s.current_period_end,
    cancel_at_period_end := ev.cancel_at_period_end.getD s.cancel_at_period_end,
    updated_at := now }
  match ev.items.head? with
  | none => s4
  | some item =>
    let new_plan := price_to_plan cfg item.price_id s4.plan_type
    if new_plan ≠ old_plan then
      let limits := get_plan_limits new_plan
      let s5 := { s4 with
        plan_type := new_plan,
        generations_limit := limits.generations_limit,
        websites_limit := limits.max_websites }
      if s5.generations_used > limits.generations_limit then
        { s5 with generations_used := limits.generations_limit }
      else s5
    else s4

/-! ## Cancellation-style handlers (`webhooks.py`) -/

/-- `handle_subscription_deleted`, effect on a found subscription
(webhooks.py lines 358-366): downgrade to free, cancel, clear the Stripe
subscription reference. -/
def handle_subscription_deleted_core (s : Subscription) (now : Int) : Subscription :=
  { s with
    plan_type := "free",
    status := "canceled",
    stripe_subscription_id := none,
    generations_limit := (get_plan_limits "free").generations_limit,
    websites_limit := (get_plan_limits "free").max_websites,
    cancel_at_period_end := false,
    updated_at := now }

/-- `handle_charge_disputed`, effect on a found subscription
(webhooks.py lines 457-464): immediate revocation of access.  The source
does not clear `stripe_subscription_id` here. -/
def handle_charge_disputed_core (s : Subscription) : Subscription :=
  { s with
    status := "canceled",
    plan_type := "free",
    generations_limit := (get_plan_limits "free").generations_limit,
    websites_limit := (get_plan_limits "free").max_websites }

/-- `handle_charge_refunded`, effect on a found subscription
(webhooks.py lines 488-496): downgrade only when the subscription status
is `active` and the charge carries a truthy `refunded` flag.  The source
does not clear `stripe_subscription_id` here either. -/
def handle_charge_refunded_core (s : Subscription) (refunded : Bool) : Subscription :=
  if s.status == "active" then
    if refunded then
      { s with
        plan_type := "free",
        status := "canceled",
        generations_limit := (get_plan_limits "free").generations_limit,
        websites_limit := (get_plan_limits "free").max_websites }
    else s
  else s

/-- `handle_customer_deleted`, effect on a found subscription
(webhooks.py lines 535-544): downgrade and clear both Stripe
references. -/
def handle_customer_deleted_core (s : Subscription) : Subscription :=
  { s with
    plan_type := "free",
    status := "canceled",
    stripe_customer_id := none,
    stripe_subscription_id := none,
    generations_limit := (get_plan_limits "free").generations_limit,
    websites_limit := (get_plan_limits "free").max_websites }

/-! ## Cooling-off refund service (`services/refund.py`)

Money amounts are modelled as exact rationals; the float quotients of the
source pricing table become the corresponding rational constants.
Outbound Stripe calls are modelled by oracle fields saying what the
remote side answers, and the mutating calls a run performs are returned
as a trace. -/

/-- `EU_COOLING_OFF_DAYS` (refund.py line 25). -/
def EU_COOLING_OFF_DAYS : Int := 14

/-- `MINIMUM_USAGE_CHARGE` (refund.py line 38). -/
def MINIMUM_USAGE_CHARGE : ℚ := 10

/-- `MAX_GENERATIONS_FOR_REFUND` (refund.py line 41). -/
def MAX_GENERATIONS_FOR_REFUND : Nat := 10

/-- `PRICE_PER_GENERATION.get(price_key, 5.00)` (refund.py lines 28-35):
per-generation price by plan and billing interval, default 5. -/
def PRICE_PER_GENERATION (price_key : String) : ℚ :=
  if price_key == "starter_monthly" then 19 / 3
  else if price_key == "starter_yearly" then 171 / 36
  else if price_key == "standard_monthly" then 39 / 10
  else if price_key == "standard_yearly" then 351 / 120
  else if price_key == "pro_monthly" then 79 / 25
  else if price_key == "pro_yearly" then 711 / 300
  else 5

/-- `timedelta.days` for an elapsed number of seconds: floor division by
86400, matching Python semantics also for negative spans. -/
def timedelta_days (seconds : Int) : Int :=
  Int.fdiv seconds 86400

/-- `is_within_cooling_off_period` (refund.py lines 50-64): false when
`created_at` is unset, otherwise whole elapsed days at most 14. -/
def is_within_cooling_off_period (now : Int) (s : Subscription) : Bool :=
  match s.created_at with
  | none => false
  | some c => decide (timedelta_days (now - c) ≤ EU_COOLING_OFF_DAYS)

/-- The dict returned by `calculate_usage_charge`. -/
structure UsageCalc where
  generations_used : Nat
  price_per_generation : ℚ
  raw_usage_charge : ℚ
  usage_charge : ℚ
  minimum_applied : Bool
  is_excessive_usage : Bool
  billing_interval : String
  deriving Repr, DecidableEq

/-- `calculate_usage_charge` (refund.py lines 66-118).  The billing
interval is determined by a Stripe retrieval with default `monthly`; it
enters here as the oracle parameter `billing_interval`. -/
def calculate_usage_charge (s : Subscription) (billing_interval : String)
    (generations_used : Nat) : UsageCalc :=
  let price_key := s.plan_type ++ "_" ++ billing_interval
  let price_per_gen := PRICE_PER_GENERATION price_key
  let raw_usage_charge := price_per_gen * (generations_used : ℚ)
  let usage_charge :=
    if 0 < generations_used then max MINIMUM_USAGE_CHARGE raw_usage_charge else 0
  { generations_used := generations_used,
    price_per_generation := price_per_gen,
    raw_usage_charge := raw_usage_charge,
    usage_charge := usage_charge,
    minimum_applied := decide (0 < generations_used) && usage_charge == MINIMUM_USAGE_CHARGE,
    is_excessive_usage := decide (MAX_GENERATIONS_FOR_REFUND < generations_used),
    billing_interval := billing_interval }

/-- What the Stripe invoice retrieval chain observes for the latest
invoice: amount paid in euros and the charge id.  An error value models
any failure of the chain (missing invoice, network error). -/
structure InvoiceInfo where
  amount_paid : ℚ
  charge : Option String
  deriving Repr, DecidableEq

/-- The two shapes of dict `calculate_refund_amount` can return. -/
inductive RefundOutcome where
  | ineligible (days_since_start : Int)
  | eligible (total_paid : ℚ) (generations_used : Nat) (usage_charge : ℚ)
      (refund_amount : ℚ) (days_since_start : Int) (is_excessive_usage : Bool)
  deriving Repr, DecidableEq

/-- `calculate_refund_amount` (refund.py lines 120-192).  The count of
completed generations is the result of the database query, passed in as
`generations_count`.  When `created_at` is unset the ineligible branch
subtracts `None` from a datetime and raises, modelled as an error. -/
def calculate_refund_amount (now : Int) (s : Subscription)
    (invoice : Except String InvoiceInfo) (billing_interval : String)
    (generations_count : Nat) : Except String RefundOutcome :=
  if is_within_cooling_off_period now s = false then
    match s.created_at with
    | none => Except.error "unsupported operand types for datetime and NoneType"
    | some c => Except.ok (RefundOutcome.ineligible (timedelta_days (now - c)))
  else
    match invoice, s.created_at with
    | Except.error e, _ => Except.error ("Could not retrieve payment information: " ++ e)
    | _, none => Except.error "unsupported operand types for datetime and NoneType"
    | Except.ok inv, some c =>
      let usage_calc := calculate_usage_charge s billing_interval generations_count
      let usage_charge := usage_calc.usage_charge
      let refund_amount := max 0 (inv.amount_paid - usage_charge)
      Except.ok (RefundOutcome.eligible inv.amount_paid generations_count usage_charge
        refund_amount (timedelta_days (now - c)) usage_calc.is_excessive_usage)

/-- Equality of `Except` values is decidable componentwise; used only to
evaluate the model on concrete inputs. -/
instance {α β : Type} [DecidableEq α] [DecidableEq β] : DecidableEq (Except α β) :=
  fun a b =>
    match a, b with
    | Except.ok x, Except.ok y => decidable_of_iff (x = y) (by simp)
    | Except.error x, Except.error y => decidable_of_iff (x = y) (by simp)
    | Except.ok _, Except.error _ => isFalse (by simp)
    | Except.error _, Except.ok _ => isFalse (by simp)

/-- The mutating external Stripe calls `process_cooling_off_refund` can
issue, recorded as a trace; read-only retrievals are not traced. -/
inductive ExtCall where
  | refund_create (amount : ℚ)
  | subscription_delete
  deriving Repr, DecidableEq

/-- Oracle for the Stripe backend during a refund run: what the invoice
retrieval chain answers, the billing interval of the subscription item,
whether `Refund.create` succeeds (with the refund id) or raises, and
whether `Subscription.delete` succeeds. -/
structure StripeRefundBackend where
  invoice : Except String InvoiceInfo
  billing_interval : String
  refund_create : Except String String
  delete_ok : Bool
  deriving Repr

/-- The local downgrade block of `_cancel_subscription_immediately`
(refund.py lines 311-320). -/
def cancel_downgrade (s : Subscription) (now : Int) : Subscription :=
  { s with
    plan_type := "free",
    status := "canceled",
    stripe_subscription_id := none,
    generations_limit := (get_plan_limits "free").generations_limit,
    websites_limit := (get_plan_limits "free").max_websites,
    cancel_at_period_end := false,
    updated_at := now }

/-- `_cancel_subscription_immediately` (refund.py lines 304-327): cancel
in Stripe when a reference exists, then downgrade the local row; a
failure of the external call aborts before the local update. -/
def cancel_subscription_immediately (s : Subscription) (delete_ok : Bool)
    (now : Int) : Except String Subscription × List ExtCall :=
  let downgraded : Subscription := cancel_downgrade s now
  match s.stripe_subscription_id with
  | some _ =>
    if delete_ok then (Except.ok downgraded, [ExtCall.subscription_delete])
    else (Except.error "Stripe delete raised", [ExtCall.subscription_delete])
  | none => (Except.ok downgraded, [])

/-- The dict returned by `process_cooling_off_refund` on success,
restricted to the fields any claim mentions. -/
structure ProcessResult where
  refunded : Bool
  refund_amount : ℚ
  usage_charge : ℚ
  deriving Repr, DecidableEq

/-- `process_cooling_off_refund` (refund.py lines 218-302).  Returns the
outcome, the subscription row after the run (unchanged whenever the run
aborts before the local commit), and the trace of mutating external
calls. -/
def process_cooling_off_refund (now : Int) (s : Subscription)
    (backend : StripeRefundBackend) (generations_count : Nat) :
    Except String ProcessResult × Subscription × List ExtCall :=
  match s.stripe_subscription_id with
  | none => (Except.error "No Stripe subscription found", s, [])
  | some _ =>
    match calculate_refund_amount now s backend.invoice backend.billing_interval
        generations_count with
    | Except.error e => (Except.error e, s, [])
    | Except.ok (RefundOutcome.ineligible _) =>
      (Except.error "Cooling-off period ended. Standard cancellation policy applies.",
        s, [])
    | Except.ok (RefundOutcome.eligible _ _ usage_charge refund_amount _ _) =>
      if refund_amount ≤ 0 then
        match cancel_subscription_immediately s backend.delete_ok now with
        | (Except.ok s2, calls) =>
          (Except.ok ⟨false, 0, usage_charge⟩, s2, calls)
        | (Except.error e, calls) => (Except.error e, s, calls)
      else
        match backend.invoice with
        | Except.error e => (Except.error ("Refund failed: " ++ e), s, [])
        | Except.ok inv =>
          match inv.charge with
          | none => (Except.error "No charge found on invoice", s, [])
          | some _ =>
            match backend.refund_create with
            | Except.error e =>
              (Except.error ("Refund failed: " ++ e), s,
                [ExtCall.refund_create refund_amount])
            | Except.ok _ =>
              match cancel_subscription_immediately s backend.delete_ok now with
              | (Except.ok s2, calls) =>
                (Except.ok ⟨true, refund_amount, usage_charge⟩, s2,
                  ExtCall.refund_create refund_amount :: calls)
              | (Except.error e, calls) =>
                (Except.error ("Refund failed: " ++ e), s,
                  ExtCall.refund_create refund_amount :: calls)

end LlmGen

namespace LlmGen

/-! ## Claims about the webhook event log -/

/-- **C3.** If a log entry for an event id already exists — in particular
after `mark_event_processed` has run for it — `should_process_event` for
that id returns `false` and leaves the event log unchanged (the function
touches no subscription row at all, so the log component is the whole
observable state). -/
theorem c3_duplicate_delivery_is_inert
    (log : EventLog) (e ty : String) (c : Int)
    (hdup : ∃ row ∈ log, row.id = e) :
    should_process_event log e ty c = (false, log) ∧
    ∀ (log₀ : EventLog) (ty₀ : String) (c₀ : Int) (ty₁ : String) (c₁ : Int),
      should_process_event (mark_event_processed log₀ e ty₀ c₀) e ty₁ c₁ =
        (false, mark_event_processed log₀ e ty₀ c₀) := by
  constructor
  · have hproc : is_event_processed log e = true := by
      obtain ⟨row, hmem, hid⟩ := hdup
      simp [is_event_processed, List.any_eq_true]
      exact ⟨row, hmem, by simp [hid]⟩
    simp [should_process_event, hproc]
  · intro log₀ ty₀ c₀ ty₁ c₁
    have hproc : is_event_processed (mark_event_processed log₀ e ty₀ c₀) e = true := by
      simp [is_event_processed, mark_event_processed, List.any_eq_true]
    simp [should_process_event, hproc]

/-- Witness for C3 at a concrete log. -/
theorem c3_duplicate_delivery_is_inert_witness :
    should_process_event [⟨"evt_1", "invoice.paid", 10, "processed"⟩]
        "evt_1" "invoice.paid" 10 =
      (false, [⟨"evt_1", "invoice.paid", 10, "processed"⟩]) :=
  (c3_duplicate_delivery_is_inert
      [⟨"evt_1", "invoice.paid", 10, "processed"⟩] "evt_1" "invoice.paid" 10
      ⟨⟨"evt_1", "invoice.paid", 10, "processed"⟩, by simp, rfl⟩).1

/-- **C1.** If some already recorded row with status `processed` and the
same event type has a strictly greater Stripe timestamp, then
`should_process_event` answers `false`; moreover, whenever the incoming
id is new (so it is the ordering guard that fires), the id is recorded
with status `processed` in the resulting log, and a redelivery of the
same event against the resulting log again answers `false`. -/
theorem c1_ordering_guard
    (log : EventLog) (e ty : String) (c : Int)
    (hnewer : ∃ row ∈ log, row.type = ty ∧ row.created > c ∧ row.status = "processed") :
    (should_process_event log e ty c).1 = false ∧
    (is_event_processed log e = false →
      ∃ row ∈ (should_process_event log e ty c).2,
        row.id = e ∧ row.status = "processed") ∧
    (should_process_event (should_process_event log e ty c).2 e ty c).1 = false := by
  obtain ⟨row, hmem, hty, hc, _⟩ := hnewer
  have hguard : (log.any fun r => r.type == ty && r.created > c) = true := by
    simp [List.any_eq_true]
    exact ⟨row, hmem, by simp [hty], hc⟩
  by_cases hdup : is_event_processed log e = true
  · refine ⟨by simp [should_process_event, hdup], ?_, ?_⟩
    · intro hfalse; simp [hdup] at hfalse
    · simp [should_process_event, hdup]
  · have hdup' : is_event_processed log e = false := by
      cases h : is_event_processed log e
      · rfl
      · exact absurd h hdup
    have hstep : should_process_event log e ty c =
        (false, mark_event_processed log e ty c) := by
      simp [should_process_event, hdup', hguard]
    refine ⟨by simp [hstep], ?_, ?_⟩
    · intro _
      refine ⟨⟨e, ty, c, "processed"⟩, ?_, rfl, rfl⟩
      simp [hstep, mark_event_processed]
    · have hproc2 : is_event_processed (mark_event_processed log e ty c) e = true := by
        simp [is_event_processed, mark_event_processed, List.any_eq_true]
      rw [hstep]
      simp [should_process_event, hproc2]

/-- **C2.** If `generations_used ≤ generations_limit` before the
plan-update handler runs, the inequality still holds afterwards; and
whenever the first price id of the event implies a tier different from
the stored one, the handler installs the new tier with its quotas and
clamps `generations_used` to the new (possibly lower) limit. -/
theorem c2_quota_cap_invariant (cfg : PriceConfig) (ev : SubUpdateEvent)
    (s : Subscription) (now : Int)
    (h : s.generations_used ≤ s.generations_limit) :
    (handle_subscription_updated_core cfg ev s now).generations_used ≤
      (handle_subscription_updated_core cfg ev s now).generations_limit ∧
    ∀ item, ev.items.head? = some item →
      price_to_plan cfg item.price_id s.plan_type ≠ s.plan_type →
      (handle_subscription_updated_core cfg ev s now).plan_type =
        price_to_plan cfg item.price_id s.plan_type ∧
      (handle_subscription_updated_core cfg ev s now).generations_limit =
        (get_plan_limits (price_to_plan cfg item.price_id s.plan_type)).generations_limit ∧
      (handle_subscription_updated_core cfg ev s now).websites_limit =
        (get_plan_limits (price_to_plan cfg item.price_id s.plan_type)).max_websites ∧
      (handle_subscription_updated_core cfg ev s now).generations_used =
        min s.generations_used
          (get_plan_limits (price_to_plan cfg item.price_id s.plan_type)).generations_limit := by
  cases hitem : ev.items.head? with
  | none =>
    refine ⟨?_, ?_⟩
    · simp only [handle_subscription_updated_core, hitem]
      exact h
    · intro item hi
      cases hi
  | some item =>
    by_cases hp : price_to_plan cfg item.price_id s.plan_type = s.plan_type
    · refine ⟨?_, ?_⟩
      · simp only [handle_subscription_updated_core, hitem, hp]
        simp
        exact h
      · intro item' hi hne
        injection hi with hii
        subst hii
        exact absurd hp hne
    · by_cases hover :
        s.generations_used >
          (get_plan_limits (price_to_plan cfg item.price_id s.plan_type)).generations_limit
      · refine ⟨?_, ?_⟩
        · simp only [handle_subscription_updated_core, hitem]
          simp [hp, hover]
        · intro item' hi hne
          injection hi with hii
          subst hii
          simp only [handle_subscription_updated_core, hitem]
          simp [hp, hover]
          omega
      · refine ⟨?_, ?_⟩
        · simp only [handle_subscription_updated_core, hitem]
          simp [hp, hover]
          omega
        · intro item' hi hne
          injection hi with hii
          subst hii
          simp only [handle_subscription_updated_core, hitem]
          simp [hp, hover]
          omega

/-- Witness for C2, the downgrade scenario of the spec: a pro
subscription with 15 of 25 generations used receives an update whose
price id is the configured standard price. -/
theorem c2_quota_cap_invariant_witness :
    (handle_subscription_updated_core ⟨"price_std", "price_pro"⟩
        ⟨none, none, none, none, [⟨some "price_std"⟩]⟩
        ⟨"pro", "active", some "cus_1", some "sub_1", none, none, false, 15, 25, 999,
          some 0, 0⟩ 5).generations_used ≤
      (handle_subscription_updated_core ⟨"price_std", "price_pro"⟩
        ⟨none, none, none, none, [⟨some "price_std"⟩]⟩
        ⟨"pro", "active", some "cus_1", some "sub_1", none, none, false, 15, 25, 999,
          some 0, 0⟩ 5).generations_limit :=
  (c2_quota_cap_invariant ⟨"price_std", "price_pro"⟩
      ⟨none, none, none, none, [⟨some "price_std"⟩]⟩
      ⟨"pro", "active", some "cus_1", some "sub_1", none, none, false, 15, 25, 999,
        some 0, 0⟩ 5 (by decide)).1

/-- **C10.** When the first price id of the event is neither the
configured standard nor the configured pro price id, the update handler
leaves the plan tier, both quota limits, the usage counter, the Stripe
references and `created_at` unchanged, updating only the status, the
period bounds, the cancellation flag and `updated_at`. -/
theorem c10_unknown_price_frame (cfg : PriceConfig) (ev : SubUpdateEvent)
    (s : Subscription) (now : Int) (item : PriceItem)
    (hitem : ev.items.head? = some item)
    (hstd : item.price_id ≠ some cfg.STRIPE_PRICE_STANDARD)
    (hpro : item.price_id ≠ some cfg.STRIPE_PRICE_PRO) :
    (handle_subscription_updated_core cfg ev s now).plan_type = s.plan_type ∧
    (handle_subscription_updated_core cfg ev s now).generations_limit =
      s.generations_limit ∧
    (handle_subscription_updated_core cfg ev s now).websites_limit = s.websites_limit ∧
    (handle_subscription_updated_core cfg ev s now).generations_used =
      s.generations_used ∧
    (handle_subscription_updated_core cfg ev s now).stripe_customer_id =
      s.stripe_customer_id ∧
    (handle_subscription_updated_core cfg ev s now).stripe_subscription_id =
      s.stripe_subscription_id ∧
    (handle_subscription_updated_core cfg ev s now).created_at = s.created_at ∧
    (handle_subscription_updated_core cfg ev s now).status = ev.status.getD s.status ∧
    (handle_subscription_updated_core cfg ev s now).cancel_at_period_end =
      ev.cancel_at_period_end.getD s.cancel_at_period_end ∧
    (handle_subscription_updated_core cfg ev s now).updated_at = now := by
  have hplan : price_to_plan cfg item.price_id s.plan_type = s.plan_type := by
    simp [price_to_plan, hstd, hpro]
  simp only [handle_subscription_updated_core, hitem]
  simp [hplan]

/-- Witness for C10: an update carrying a starter price id on a standard
subscription. -/
theorem c10_unknown_price_frame_witness :
    (handle_subscription_updated_core ⟨"price_std", "price_pro"⟩
        ⟨some "past_due", some 100, some 200, some true, [⟨some "price_starter"⟩]⟩
        ⟨"standard", "active", some "cus_2", some "sub_2", none, none, false, 4, 10, 5,
          some 0, 0⟩ 7).generations_limit = 10 := by
  have h := c10_unknown_price_frame ⟨"price_std", "price_pro"⟩
      ⟨some "past_due", some 100, some 200, some true, [⟨some "price_starter"⟩]⟩
      ⟨"standard", "active", some "cus_2", some "sub_2", none, none, false, 4, 10, 5,
        some 0, 0⟩ 7 ⟨some "price_starter"⟩ rfl (by decide) (by decide)
  exact h.2.1

/-- Witness for C1: type `sub.updated` at timestamp 2000 already
processed, incoming retry of the same type at timestamp 1500. -/
theorem c1_ordering_guard_witness :
    (should_process_event [⟨"evt_B", "sub.updated", 2000, "processed"⟩]
        "evt_C" "sub.updated" 1500).1 = false ∧
    (∃ row ∈ (should_process_event [⟨"evt_B", "sub.updated", 2000, "processed"⟩]
        "evt_C" "sub.updated" 1500).2,
        row.id = "evt_C" ∧ row.status = "processed") := by
  have h := c1_ordering_guard [⟨"evt_B", "sub.updated", 2000, "processed"⟩]
      "evt_C" "sub.updated" 1500
      ⟨⟨"evt_B", "sub.updated", 2000, "processed"⟩, by simp, rfl, by decide, rfl⟩
  exact ⟨h.1, h.2.1 (by decide)⟩

/-- **C9.** The charge-refunded handler mutates the subscription only
when its status is exactly `active` and the event marks the charge fully
refunded; in every other case the row is returned bit-for-bit unchanged,
and when it does fire it downgrades to the free tier and cancels. -/
theorem c9_charge_refunded_frame (s : Subscription) (refunded : Bool) :
    (¬(s.status = "active" ∧ refunded = true) →
      handle_charge_refunded_core s refunded = s) ∧
    (s.status = "active" → refunded = true →
      (handle_charge_refunded_core s refunded).plan_type = "free" ∧
      (handle_charge_refunded_core s refunded).status = "canceled") := by
  constructor
  · intro hne
    unfold handle_charge_refunded_core
    by_cases hs : s.status = "active"
    · have hr : refunded = false := by
        cases refunded
        · rfl
        · exact absurd ⟨hs, rfl⟩ hne
      simp [hs, hr]
    · simp [hs]
  · intro hs hr
    unfold handle_charge_refunded_core
    simp [hs, hr]

/-- Witness for C9: a full refund against a `past_due` subscription
leaves it untouched. -/
theorem c9_charge_refunded_frame_witness :
    handle_charge_refunded_core
      ⟨"pro", "past_due", some "cus_9", some "sub_9", none, none, false, 5, 25, 999,
        some 0, 0⟩ true =
      ⟨"pro", "past_due", some "cus_9", some "sub_9", none, none, false, 5, 25, 999,
        some 0, 0⟩ :=
  (c9_charge_refunded_frame
      ⟨"pro", "past_due", some "cus_9", some "sub_9", none, none, false, 5, 25, 999,
        some 0, 0⟩ true).1 (by decide)

/-- **C4, counterexample.** The chargeback handler leaves a canceled
subscription whose Stripe subscription reference is still set, so the
claimed invariant `status = canceled → external_subscription_ref = null`
fails at this input. -/
theorem c4_counterexample_dispute_keeps_ref :
    (handle_charge_disputed_core
      ⟨"pro", "active", some "cus_4", some "sub_4", none, none, false, 5, 25, 999,
        some 0, 0⟩).status = "canceled" ∧
    (handle_charge_disputed_core
      ⟨"pro", "active", some "cus_4", some "sub_4", none, none, false, 5, 25, 999,
        some 0, 0⟩).stripe_subscription_id = some "sub_4" :=
  ⟨rfl, rfl⟩

/-- **C4, amended.** Every cancelling handler leaves `plan_type = free`
together with `status = canceled`; the subscription-deleted handler, the
customer-deleted handler and the cooling-off cancellation also clear the
Stripe subscription reference, while the dispute and full-refund
handlers leave that reference unchanged. -/
theorem c4_canceled_state_amended (s : Subscription) (now : Int) (refunded : Bool) :
    ((handle_subscription_deleted_core s now).status = "canceled" ∧
      (handle_subscription_deleted_core s now).plan_type = "free" ∧
      (handle_subscription_deleted_core s now).stripe_subscription_id = none) ∧
    ((handle_customer_deleted_core s).status = "canceled" ∧
      (handle_customer_deleted_core s).plan_type = "free" ∧
      (handle_customer_deleted_core s).stripe_subscription_id = none) ∧
    (∀ ok s2 calls,
      cancel_subscription_immediately s ok now = (Except.ok s2, calls) →
      s2.status = "canceled" ∧ s2.plan_type = "free" ∧
      s2.stripe_subscription_id = none) ∧
    ((handle_charge_disputed_core s).status = "canceled" ∧
      (handle_charge_disputed_core s).plan_type = "free" ∧
      (handle_charge_disputed_core s).stripe_subscription_id =
        s.stripe_subscription_id) ∧
    (s.status = "active" → refunded = true →
      (handle_charge_refunded_core s refunded).status = "canceled" ∧
      (handle_charge_refunded_core s refunded).plan_type = "free" ∧
      (handle_charge_refunded_core s refunded).stripe_subscription_id =
        s.stripe_subscription_id) := by
  refine ⟨⟨rfl, rfl, rfl⟩, ⟨rfl, rfl, rfl⟩, ?_, ⟨rfl, rfl, rfl⟩, ?_⟩
  · intro ok s2 calls h
    unfold cancel_subscription_immediately at h
    cases hsid : s.stripe_subscription_id with
    | none =>
      rw [hsid] at h
      simp only [] at h
      injection h with h1 h2
      injection h1 with h1
      subst h1
      exact ⟨rfl, rfl, rfl⟩
    | some sid =>
      rw [hsid] at h
      cases ok with
      | true =>
        simp only [if_true] at h
        injection h with h1 h2
        injection h1 with h1
        subst h1
        exact ⟨rfl, rfl, rfl⟩
      | false =>
        simp only [if_false] at h
        injection h with h1 h2
        exact absurd h1 (by simp)
  · intro hs hr
    unfold handle_charge_refunded_core
    simp [hs, hr]

/-- Witness for C4 amended: the full-refund handler on an active pro
subscription cancels, downgrades and keeps the Stripe reference. -/
theorem c4_canceled_state_amended_witness :
    (handle_charge_refunded_core
      ⟨"pro", "active", some "cus_5", some "sub_5", none, none, false, 5, 25, 999,
        some 0, 0⟩ true).status = "canceled" ∧
    (handle_charge_refunded_core
      ⟨"pro", "active", some "cus_5", some "sub_5", none, none, false, 5, 25, 999,
        some 0, 0⟩ true).stripe_subscription_id = some "sub_5" := by
  have h := (c4_canceled_state_amended
      ⟨"pro", "active", some "cus_5", some "sub_5", none, none, false, 5, 25, 999,
        some 0, 0⟩ 0 true).2.2.2.2 rfl rfl
  exact ⟨h.1, h.2.2⟩


/-- Dissection of a successful eligible result of
`calculate_refund_amount`: the reported generation count is the queried
count, the reported usage charge is the one of `calculate_usage_charge`,
and the refund amount follows the clamped-difference formula. -/
theorem calculate_refund_amount_eligible_inv (now : Int) (s : Subscription)
    (invoice : Except String InvoiceInfo) (interval : String) (count : Nat)
    (tp : ℚ) (gu : Nat) (uc ra : ℚ) (ds : Int) (ex : Bool)
    (h : calculate_refund_amount now s invoice interval count =
      Except.ok (RefundOutcome.eligible tp gu uc ra ds ex)) :
    gu = count ∧
    uc = (calculate_usage_charge s interval count).usage_charge ∧
    ra = max 0 (tp - uc) := by
  unfold calculate_refund_amount at h
  by_cases hw : is_within_cooling_off_period now s = false
  · rw [if_pos hw] at h
    cases hc : s.created_at with
    | none => rw [hc] at h; simp at h
    | some c => rw [hc] at h; simp at h
  · rw [if_neg hw] at h
    cases invoice with
    | error e =>
      cases hc : s.created_at with
      | none => rw [hc] at h; simp at h
      | some c => rw [hc] at h; simp at h
    | ok inv =>
      cases hc : s.created_at with
      | none => rw [hc] at h; simp at h
      | some c =>
        rw [hc] at h
        simp only [Except.ok.injEq, RefundOutcome.eligible.injEq] at h
        obtain ⟨h1, h2, h3, h4, h5, h6⟩ := h
        subst h1
        subst h2
        subst h3
        subst h4
        exact ⟨rfl, rfl, rfl⟩

/-- **C5.** Whenever `calculate_refund_amount` reports an eligible
refund, the reported refund amount equals `max 0 (total_paid -
usage_charge)`; it is never negative, and it is exactly zero as soon as
the usage charge meets or exceeds what was paid. -/
theorem c5_refund_amount_formula (now : Int) (s : Subscription)
    (invoice : Except String InvoiceInfo) (interval : String) (count : Nat)
    (tp : ℚ) (gu : Nat) (uc ra : ℚ) (ds : Int) (ex : Bool)
    (h : calculate_refund_amount now s invoice interval count =
      Except.ok (RefundOutcome.eligible tp gu uc ra ds ex)) :
    ra = max 0 (tp - uc) ∧ 0 ≤ ra ∧ (uc ≥ tp → ra = 0) := by
  obtain ⟨-, -, hra⟩ :=
    calculate_refund_amount_eligible_inv now s invoice interval count
      tp gu uc ra ds ex h
  subst hra
  refine ⟨rfl, le_max_left 0 _, fun hle => ?_⟩
  exact max_eq_left (sub_nonpos.mpr hle)

/-- Witness for C5: standard plan, zero completed generations, 39 euros
paid, five days into the window. -/
theorem c5_refund_amount_formula_witness :
    (39 : ℚ) = max 0 (39 - 0) ∧ (0 : ℚ) ≤ 39 ∧ ((0 : ℚ) ≥ 39 → (39 : ℚ) = 0) :=
  c5_refund_amount_formula (5 * 86400)
    ⟨"standard", "active", some "cus_6", some "sub_6", none, none, false, 0, 10, 5,
      some 0, 0⟩ (Except.ok ⟨39, some "ch_6"⟩) "monthly" 0
    39 0 0 39 5 false (by
      have h5 : Int.fdiv 432000 86400 = 5 := by decide
      norm_num [calculate_refund_amount, is_within_cooling_off_period, timedelta_days,
        EU_COOLING_OFF_DAYS, calculate_usage_charge, MINIMUM_USAGE_CHARGE,
        PRICE_PER_GENERATION, MAX_GENERATIONS_FOR_REFUND, h5])

/-- **C6.** `calculate_usage_charge` returns a charge of exactly zero
for a zero count; for a positive count it returns the maximum of the
minimum-charge floor and the per-unit price times the count; the
excessive-usage flag is set exactly when the count exceeds the fixed
ceiling; with a zero count an eligible refund equals the full amount
paid; and an in-window calculation with a retrievable invoice reports an
eligible refund for every count, so an excessive count warns without
blocking the refund. -/
theorem c6_usage_charge_structure (s : Subscription) (interval : String) (count : Nat) :
    (count = 0 → (calculate_usage_charge s interval count).usage_charge = 0) ∧
    (0 < count →
      (calculate_usage_charge s interval count).usage_charge =
        max MINIMUM_USAGE_CHARGE
          (PRICE_PER_GENERATION (s.plan_type ++ "_" ++ interval) * (count : ℚ))) ∧
    ((calculate_usage_charge s interval count).is_excessive_usage = true ↔
      MAX_GENERATIONS_FOR_REFUND < count) ∧
    (∀ (now : Int) (invoice : Except String InvoiceInfo) (tp : ℚ) (gu : Nat)
      (uc ra : ℚ) (ds : Int) (ex : Bool),
      count = 0 → 0 ≤ tp →
      calculate_refund_amount now s invoice interval count =
        Except.ok (RefundOutcome.eligible tp gu uc ra ds ex) →
      uc = 0 ∧ ra = tp) ∧
    (∀ (now : Int) (inv : InvoiceInfo) (c : Int),
      s.created_at = some c →
      is_within_cooling_off_period now s = true →
      calculate_refund_amount now s (Except.ok inv) interval count =
        Except.ok (RefundOutcome.eligible inv.amount_paid count
          (calculate_usage_charge s interval count).usage_charge
          (max 0 (inv.amount_paid -
            (calculate_usage_charge s interval count).usage_charge))
          (timedelta_days (now - c))
          (calculate_usage_charge s interval count).is_excessive_usage)) := by
  refine ⟨?_, ?_, ?_, ?_, ?_⟩
  · intro h0
    subst h0
    simp [calculate_usage_charge]
  · intro hpos
    simp [calculate_usage_charge, hpos]
  · simp [calculate_usage_charge]
  · intro now invoice tp gu uc ra ds ex h0 htp h
    subst h0
    obtain ⟨-, huc, hra⟩ :=
      calculate_refund_amount_eligible_inv now s invoice interval 0
        tp gu uc ra ds ex h
    have huc0 : uc = 0 := by
      rw [huc]
      simp [calculate_usage_charge]
    refine ⟨huc0, ?_⟩
    rw [hra, huc0, sub_zero]
    exact max_eq_right htp
  · intro now inv c hc hw
    simp [calculate_refund_amount, hw, hc]

/-- Witness for C6: pro plan billed monthly, twelve completed
generations. -/
theorem c6_usage_charge_structure_witness :
    (0 < 12 →
      (calculate_usage_charge
        ⟨"pro", "active", some "cus_p", some "sub_p", none, none, false, 12, 25, 999,
          some 0, 0⟩ "monthly" 12).usage_charge =
        max MINIMUM_USAGE_CHARGE (PRICE_PER_GENERATION ("pro" ++ "_" ++ "monthly") * (12 : ℚ))) ∧
    ((calculate_usage_charge
        ⟨"pro", "active", some "cus_p", some "sub_p", none, none, false, 12, 25, 999,
          some 0, 0⟩ "monthly" 12).is_excessive_usage = true ↔
      MAX_GENERATIONS_FOR_REFUND < 12) :=
  ⟨(c6_usage_charge_structure
      ⟨"pro", "active", some "cus_p", some "sub_p", none, none, false, 12, 25, 999,
        some 0, 0⟩ "monthly" 12).2.1,
    (c6_usage_charge_structure
      ⟨"pro", "active", some "cus_p", some "sub_p", none, none, false, 12, 25, 999,
        some 0, 0⟩ "monthly" 12).2.2.1⟩

/-- **C7, counterexample.** Fourteen days plus one hour after the
subscription start the window test still answers `true`, although the
elapsed time exceeds 14 days; the claimed characterisation `true iff
now - created_at ≤ 14 days` therefore fails at this input. -/
theorem c7_counterexample_day_granularity :
    is_within_cooling_off_period (14 * 86400 + 3600)
      ⟨"standard", "active", some "cus_7", some "sub_7", none, none, false, 0, 10, 5,
        some 0, 0⟩ = true ∧
    ¬(((14 * 86400 + 3600 : Int) - 0) ≤ 14 * 86400) := by
  constructor
  · decide
  · decide

/-- **C7, amended.** The window test is true iff `created_at` is set and
the whole number of elapsed days is at most 14 (so strictly less than 15
full days), and false when `created_at` is unset; when it is false with
`created_at` set, `calculate_refund_amount` reports ineligibility
regardless of usage, while with `created_at` unset it fails with an
error instead of reporting. -/
theorem c7_window_amended (now : Int) (s : Subscription) :
    (is_within_cooling_off_period now s = true ↔
      ∃ c, s.created_at = some c ∧
        timedelta_days (now - c) ≤ EU_COOLING_OFF_DAYS) ∧
    (s.created_at = none → is_within_cooling_off_period now s = false) ∧
    (∀ (invoice : Except String InvoiceInfo) (interval : String) (count : Nat) (c : Int),
      s.created_at = some c →
      is_within_cooling_off_period now s = false →
      calculate_refund_amount now s invoice interval count =
        Except.ok (RefundOutcome.ineligible (timedelta_days (now - c)))) ∧
    (∀ (invoice : Except String InvoiceInfo) (interval : String) (count : Nat),
      s.created_at = none →
      ∃ msg, calculate_refund_amount now s invoice interval count =
        Except.error msg) := by
  refine ⟨?_, ?_, ?_, ?_⟩
  · cases hc : s.created_at with
    | none => simp [is_within_cooling_off_period, hc]
    | some c => simp [is_within_cooling_off_period, hc]
  · intro hnone
    simp [is_within_cooling_off_period, hnone]
  · intro invoice interval count c hc hfalse
    simp [calculate_refund_amount, hfalse, hc]
  · intro invoice interval count hnone
    have hw : is_within_cooling_off_period now s = false := by
      simp [is_within_cooling_off_period, hnone]
    exact ⟨"unsupported operand types for datetime and NoneType",
      by simp [calculate_refund_amount, hw, hnone]⟩

/-- Witness for C7 amended: twenty days after start the refund
calculation reports ineligibility. -/
theorem c7_window_amended_witness :
    calculate_refund_amount (20 * 86400)
      ⟨"standard", "active", some "cus_8", some "sub_8", none, none, false, 5, 10, 5,
        some 0, 0⟩ (Except.ok ⟨39, some "ch_8"⟩) "monthly" 5 =
      Except.ok (RefundOutcome.ineligible 20) := by
  have h := (c7_window_amended (20 * 86400)
      ⟨"standard", "active", some "cus_8", some "sub_8", none, none, false, 5, 10, 5,
        some 0, 0⟩).2.2.1 (Except.ok ⟨39, some "ch_8"⟩) "monthly" 5 0 rfl (by decide)
  exact h


/-- **C8.** If the external refund call is made during a run of
`process_cooling_off_refund` and raises, the run aborts with an error
and the subscription row comes back exactly as it went in — no partial
downgrade is observable; conversely, whenever the computed eligible
refund is not positive, the refund call never appears in the external
trace, yet (provided the Stripe cancellation call succeeds) the
subscription ends canceled on the free tier and the run reports that
nothing was refunded. -/
theorem c8_refund_atomicity (now : Int) (s : Subscription)
    (backend : StripeRefundBackend) (count : Nat) :
    (∀ (err : String) (a : ℚ),
      backend.refund_create = Except.error err →
      ExtCall.refund_create a ∈
        (process_cooling_off_refund now s backend count).2.2 →
      (process_cooling_off_refund now s backend count).2.1 = s ∧
      ∃ msg, (process_cooling_off_refund now s backend count).1 =
        Except.error msg) ∧
    (∀ (sid : String) (tp : ℚ) (gu : Nat) (uc ra : ℚ) (ds : Int) (ex : Bool),
      s.stripe_subscription_id = some sid →
      calculate_refund_amount now s backend.invoice backend.billing_interval count =
        Except.ok (RefundOutcome.eligible tp gu uc ra ds ex) →
      ra ≤ 0 →
      backend.delete_ok = true →
      (∀ a : ℚ, ExtCall.refund_create a ∉
        (process_cooling_off_refund now s backend count).2.2) ∧
      (process_cooling_off_refund now s backend count).2.1.status = "canceled" ∧
      (process_cooling_off_refund now s backend count).2.1.plan_type = "free" ∧
      ∃ r, (process_cooling_off_refund now s backend count).1 = Except.ok r ∧
        r.refunded = false) := by
  constructor
  · intro err a hre hmem
    cases hsid : s.stripe_subscription_id with
    | none =>
      simp only [process_cooling_off_refund, hsid] at hmem
      simp at hmem
    | some sid =>
      cases hcalc : calculate_refund_amount now s backend.invoice
          backend.billing_interval count with
      | error e0 =>
        simp only [process_cooling_off_refund, hsid, hcalc] at hmem
        simp at hmem
      | ok out =>
        cases out with
        | ineligible d =>
          simp only [process_cooling_off_refund, hsid, hcalc] at hmem
          simp at hmem
        | eligible tp gu uc ra ds ex =>
          by_cases hra : ra ≤ 0
          · cases hdel : backend.delete_ok with
            | true =>
              simp only [process_cooling_off_refund, hsid, hcalc,
                cancel_subscription_immediately, hdel, hra, ite_true] at hmem
              simp at hmem
            | false =>
              simp only [process_cooling_off_refund, hsid, hcalc,
                cancel_subscription_immediately, hdel, hra, ite_true] at hmem
              simp at hmem
          · cases hinv : backend.invoice with
            | error e1 =>
              rw [hinv] at hcalc
              simp only [process_cooling_off_refund, hsid, hcalc, hinv, hra,
                ite_false] at hmem
              simp at hmem
            | ok inv =>
              cases hch : inv.charge with
              | none =>
                rw [hinv] at hcalc
                simp only [process_cooling_off_refund, hsid, hcalc, hinv, hch, hra,
                  ite_false] at hmem
                simp at hmem
              | some ch =>
                rw [hinv] at hcalc
                simp only [process_cooling_off_refund, hsid, hcalc, hinv, hch, hre,
                  hra, ite_false]
                constructor
                · trivial
                · exact ⟨"Refund failed: " ++ err, rfl⟩
  · intro sid tp gu uc ra ds ex hsid hcalc hra hdel
    have hproc : process_cooling_off_refund now s backend count =
        (Except.ok ⟨false, 0, uc⟩, cancel_downgrade s now,
          [ExtCall.subscription_delete]) := by
      simp only [process_cooling_off_refund, hsid, hcalc,
        cancel_subscription_immediately, hdel, hra, ite_true]
    rw [hproc]
    refine ⟨?_, rfl, rfl, ⟨false, 0, uc⟩, rfl, rfl⟩
    intro a hmem
    simp at hmem

/-- Witness for C8: three completed standard-plan generations cost more
than the 10 euros paid, so the computed refund is zero, the refund call
is skipped and the subscription is still canceled and downgraded. -/
theorem c8_refund_atomicity_witness :
    (process_cooling_off_refund 0
      ⟨"standard", "active", some "cus_w", some "sub_w", none, none, false, 3, 10, 5,
        some 0, 0⟩ ⟨Except.ok ⟨10, some "ch_w"⟩, "monthly", Except.ok "re_1", true⟩
      3).2.1.status = "canceled" ∧
    (process_cooling_off_refund 0
      ⟨"standard", "active", some "cus_w", some "sub_w", none, none, false, 3, 10, 5,
        some 0, 0⟩ ⟨Except.ok ⟨10, some "ch_w"⟩, "monthly", Except.ok "re_1", true⟩
      3).2.1.plan_type = "free" := by
  have h := (c8_refund_atomicity 0
      ⟨"standard", "active", some "cus_w", some "sub_w", none, none, false, 3, 10, 5,
        some 0, 0⟩ ⟨Except.ok ⟨10, some "ch_w"⟩, "monthly", Except.ok "re_1", true⟩
      3).2 "sub_w" 10 3 (117 / 10) 0 0 false rfl
      (by
        have h0 : Int.fdiv 0 86400 = 0 := by decide
        have hkey : "standard" ++ "_" ++ "monthly" = "standard_monthly" := rfl
        have hs1 : ("standard_monthly" : String) ≠ "starter_monthly" := by decide
        have hs2 : ("standard_monthly" : String) ≠ "starter_yearly" := by decide
        norm_num [calculate_refund_amount, is_within_cooling_off_period, timedelta_days,
          EU_COOLING_OFF_DAYS, calculate_usage_charge, MINIMUM_USAGE_CHARGE,
          PRICE_PER_GENERATION, MAX_GENERATIONS_FOR_REFUND, h0, hkey, hs1, hs2])
      le_rfl rfl
  exact ⟨h.2.1, h.2.2.1⟩

end LlmGen
